import Mathlib

/-!
Verification development for the EcoSort reward/transaction core.

Each definition below is a shallow embedding of a function of the source:
  - src/types/waste.ts           -> category table, enums
  - src/hooks/useWasteScanner.ts -> scanWithImage, handleDisposalChoice
  - useMarketplace hook          -> purchaseListing
  - PendingScansTab              -> handleApprove / handleReject (scans)
  - PendingListingsTab.tsx       -> listingApprove / listingReject
  - Auth page                    -> migrateGuestData
  - check-listing-compliance     -> complianceCheck

Machine numbers are modelled as Int / Rat; JavaScript Math.floor and
Math.round are modelled by Int.fdiv and by floor (x + 1/2) respectively
(exact for all values these functions are applied to in the source, whose
multipliers have one decimal digit and whose base points are integers).
Every fallible remote write is threaded explicitly: a `Faults` record says
which call fails, mirroring the error paths of the source.
-/

namespace EcoSort

/-- Waste categories, from the WasteCategory union type in src/types/waste.ts. -/
inductive WasteCategory
  | clothing
  | electronics
  | compost
  | recyclable
  | hazardous
  | other
deriving DecidableEq, Repr

/-- Disposal choices, from the DisposalChoice union type in src/types/waste.ts. -/
inductive DisposalChoice
  | donate
  | trade
  | recycle
  | discard
  | special
deriving DecidableEq, Repr

/-- Scan statuses, from the ScanStatus union type in src/types/waste.ts. -/
inductive ScanStatus
  | pending
  | approved
  | rejected
deriving DecidableEq, Repr

/-- One entry of a category's choices array in categoryInfo (value and
pointsMultiplier; labels and colors are presentation only and omitted).
The source stores the multiplier as a decimal literal with one decimal
digit (2, 1.8, 1.5, 1, 0.5); it is represented here exactly as an integer
number of tenths (20, 18, 15, 10, 5) so that all arithmetic is over ℤ. -/
structure ChoiceConfig where
  value : DisposalChoice
  pointsMultiplierTenths : ℤ
  isPrimary : Bool
deriving DecidableEq, Repr

/-- The needsChoice field of categoryInfo in src/types/waste.ts. -/
def categoryNeedsChoice : WasteCategory → Bool
  | .clothing => true
  | .electronics => true
  | .compost => true
  | .recyclable => true
  | .hazardous => true
  | .other => false

/-- The choices arrays of categoryInfo in src/types/waste.ts, in source
order, multipliers in tenths (donate 2 is 20, trade 1.8 is 18, and so on).
Categories without a choices field (other) give the empty list; hazardous
offers only special — the source has no discard entry for it. -/
def categoryChoices : WasteCategory → List ChoiceConfig
  | .clothing =>
      [⟨.donate, 20, true⟩, ⟨.trade, 18, true⟩, ⟨.discard, 10, false⟩]
  | .electronics =>
      [⟨.trade, 20, true⟩, ⟨.recycle, 15, true⟩, ⟨.discard, 5, false⟩]
  | .compost =>
      [⟨.recycle, 15, true⟩, ⟨.discard, 10, false⟩]
  | .recyclable =>
      [⟨.trade, 15, true⟩, ⟨.recycle, 15, true⟩, ⟨.discard, 10, false⟩]
  | .hazardous =>
      [⟨.special, 20, true⟩]
  | .other => []

/-- JavaScript Math.round(b * (m / 10)) for integer b and a multiplier of m
tenths: floor(b * m / 10 + 1/2) = floor((2 * b * m + 10) / 20), exact since
every multiplier in the source has one decimal digit and base points are
integers. Int division by the positive literal 20 is floor division. -/
def jsRoundTimesTenths (b m : ℤ) : ℤ := (2 * b * m + 10) / 20

/-- jsRoundTimesTenths is the floor form of Math.round(b * (m / 10)). -/
theorem jsRoundTimesTenths_eq_floor (b m : ℤ) :
    jsRoundTimesTenths b m = ⌊(b : ℚ) * (m / 10) + 1 / 2⌋ := by
  have h : (b : ℚ) * (m / 10) + 1 / 2
      = ((2 * b * m + 10 : ℤ) : ℚ) / ((20 : ℕ) : ℚ) := by
    push_cast
    ring
  rw [h, Rat.floor_intCast_div_natCast]
  rfl

/-- calculateLevel in useWasteScanner.ts: Math.floor(points / 100) + 1. -/
def calculateLevel (points : ℤ) : ℤ := Int.fdiv points 100 + 1

/-- UserStats from src/types/waste.ts. -/
structure UserStats where
  totalPoints : ℤ
  level : ℤ
  scansToday : ℤ
  streak : ℤ
  itemsRecycled : ℤ
  pendingPoints : ℤ
deriving DecidableEq, Repr

/-- The scan-relevant fields of a WasteItem from src/types/waste.ts. -/
structure ScanItem where
  name : String
  category : WasteCategory
  points : ℤ
  basePoints : ℤ
  finalPoints : ℤ
  status : ScanStatus
  disposalChoice : Option DisposalChoice
deriving DecidableEq, Repr

/-- The multiplier picked by handleDisposalChoice, in tenths:
category.choices?.find(c => c.value === choice)?.pointsMultiplier || 1.
The || 1 coerces both a missing config and a zero multiplier to 1 (ten
tenths). -/
def lookupMultiplier (cat : WasteCategory) (choice : DisposalChoice) : ℤ :=
  match (categoryChoices cat).find? (fun c => c.value == choice) with
  | none => 10
  | some c => if c.pointsMultiplierTenths = 0 then 10 else c.pointsMultiplierTenths

/-- Result of applying a disposal choice: the updated item, the updated
stats, whether a draft listing is spawned (trade), and its price if so. -/
structure DisposalOutcome where
  item : ScanItem
  stats : UserStats
  isTrade : Bool
  draftListingPrice : Option ℤ
deriving DecidableEq, Repr

/-- handleDisposalChoice in useWasteScanner.ts (pure core: the state updates
it performs on the last scanned item and the user stats; the guest branch
and the authenticated branch write the same values). -/
def handleDisposalChoice (item : ScanItem) (stats : UserStats)
    (choice : DisposalChoice) : DisposalOutcome :=
  let multiplier := lookupMultiplier item.category choice
  let finalPoints := jsRoundTimesTenths item.basePoints multiplier
  let isDiscard := choice = .discard
  let isTrade := choice = .trade
  let status : ScanStatus := if isDiscard then .approved else .pending
  let updatedItem : ScanItem :=
    { item with disposalChoice := some choice, finalPoints := finalPoints,
                status := status }
  let newStats : UserStats :=
    if isDiscard then
      let newPoints := stats.totalPoints + finalPoints
      { stats with totalPoints := newPoints,
                   level := calculateLevel newPoints,
                   scansToday := stats.scansToday + 1,
                   itemsRecycled := stats.itemsRecycled + 1 }
    else
      { stats with scansToday := stats.scansToday + 1,
                   pendingPoints := stats.pendingPoints + finalPoints }
  { item := updatedItem, stats := newStats, isTrade := isTrade,
    draftListingPrice := if isTrade then some (finalPoints * 2) else none }

/-- A classification result as consumed by scanWithImage. -/
structure ClassificationResult where
  name : String
  category : WasteCategory
  points : ℤ
  isRetry : Bool
deriving DecidableEq, Repr

/-- Result of one scanWithImage call: the item built from the result,
whether it was persisted (saved to history / inserted), and the new stats. -/
structure ScanOutcome where
  item : ScanItem
  persisted : Bool
  stats : UserStats
  history : List ScanItem
deriving DecidableEq, Repr

/-- scanWithImage in useWasteScanner.ts (pure core over the stats and the
scan history; the guest and authenticated branches write the same values).
Retry results are shown but never persisted; category other is approved and
credited immediately; all needsChoice categories leave the stats and the
history untouched until a disposal choice is applied. -/
def scanWithImage (result : ClassificationResult) (stats : UserStats)
    (history : List ScanItem) : ScanOutcome :=
  let needsChoice := categoryNeedsChoice result.category
  let initialStatus : ScanStatus :=
    if result.category = .other then .approved else .pending
  let newItem : ScanItem :=
    { name := result.name, category := result.category,
      points := result.points, basePoints := result.points,
      finalPoints := result.points, status := initialStatus,
      disposalChoice := if needsChoice then none else some .discard }
  if result.isRetry then
    { item := newItem, persisted := false, stats := stats, history := history }
  else if needsChoice = false then
    if result.category = .other then
      let newPoints := stats.totalPoints + result.points
      let newStats : UserStats :=
        { stats with totalPoints := newPoints,
                     level := calculateLevel newPoints,
                     scansToday := stats.scansToday + 1,
                     itemsRecycled := stats.itemsRecycled + 1 }
      { item := newItem, persisted := true, stats := newStats,
        history := newItem :: history }
    else
      let newStats : UserStats :=
        { stats with scansToday := stats.scansToday + 1,
                     pendingPoints := stats.pendingPoints + result.points }
      { item := newItem, persisted := true, stats := newStats,
        history := newItem :: history }
  else
    { item := newItem, persisted := false, stats := stats, history := history }

/-- Listing statuses from src/types/marketplace.ts. -/
inductive ListingStatus
  | draft
  | pending_review
  | active
  | sold
  | cancelled
deriving DecidableEq, Repr

/-- Order statuses from src/types/marketplace.ts. -/
inductive OrderStatus
  | pending
  | completed
  | cancelled
deriving DecidableEq, Repr

/-- A row of the profiles table (the fields the embedded operations read
or write). -/
structure Profile where
  id : String
  total_points : ℤ
  level : ℤ
  streak : ℤ
  items_recycled : ℤ
  username : Option String
deriving DecidableEq, Repr

/-- A row of the marketplace_listings table. -/
structure Listing where
  id : String
  sellerId : String
  scanId : Option String
  title : String
  category : WasteCategory
  pricePoints : ℤ
  status : ListingStatus
deriving DecidableEq, Repr

/-- A row of the orders table. -/
structure Order where
  listingId : String
  buyerId : String
  sellerId : String
  pricePoints : ℤ
  status : OrderStatus
deriving DecidableEq, Repr

/-- A row of the system_notifications table. -/
structure Notification where
  targetUserId : Option String
  title : String
deriving DecidableEq, Repr

/-- A row of the messages table. -/
structure Message where
  senderId : String
  receiverId : String
  listingId : String
deriving DecidableEq, Repr

/-- A row of the scan_history table (the fields the embedded operations
read or write). -/
structure ScanRow where
  id : String
  user_id : String
  item_name : String
  category : WasteCategory
  base_points : ℤ
  final_points : ℤ
  status : ScanStatus
  disposal_choice : Option DisposalChoice
deriving DecidableEq, Repr

/-- The remote store: one list per table touched by the embedded
operations. -/
structure Store where
  scans : List ScanRow
  listings : List Listing
  orders : List Order
  profiles : List Profile
  notifications : List Notification
  messages : List Message
deriving DecidableEq, Repr

/-- SELECT ... FROM profiles WHERE id = uid (single row). -/
def lookupProfile (ps : List Profile) (uid : String) : Option Profile :=
  ps.find? (fun p => p.id == uid)

/-- UPDATE profiles SET total_points = pts WHERE id = uid. Level is not
touched: purchaseListing writes only total_points and updated_at. -/
def updateProfilePoints (ps : List Profile) (uid : String) (pts : ℤ) :
    List Profile :=
  ps.map (fun p => if p.id == uid then { p with total_points := pts } else p)

/-- UPDATE marketplace_listings SET status = st WHERE id = lid. -/
def updateListingStatus (ls : List Listing) (lid : String)
    (st : ListingStatus) : List Listing :=
  ls.map (fun l => if l.id == lid then { l with status := st } else l)

/-- Typed rendering of the outcomes of purchaseListing in the marketplace
hook: the three early returns (login is out of scope here), the catch
branch, and success. The source reports them through distinct toasts and
a boolean return value. -/
inductive PurchaseResult
  | success
  | notOwnListing
  | insufficientFunds
  | purchaseFailed
deriving DecidableEq, Repr

/-- Which remote calls of purchaseListing fail, one flag per call site.
The first three calls check their error and throw into the catch block;
the seller profile select and update, the buyer username select, and the
notification and message inserts never have their errors checked, so
their failures are silent. -/
structure PurchaseFaults where
  orderInsertFails : Bool
  listingUpdateFails : Bool
  buyerUpdateFails : Bool
  sellerSelectFails : Bool
  sellerUpdateFails : Bool
  buyerSelectFails : Bool
  notifInsertFails : Bool
  messageInsertFails : Bool
deriving DecidableEq, Repr

/-- The execution with every remote call succeeding. -/
def noFaults : PurchaseFaults :=
  ⟨false, false, false, false, false, false, false, false⟩

/-- purchaseListing in the useMarketplace hook. buyerPoints is the balance
the client passes in (the caller's view of the buyer's points). Returns the
typed outcome and the state of the store afterwards. The catch branch only
logs and toasts: no compensating write is performed on any failure. -/
def purchaseListing (s : Store) (listing : Listing) (buyerId : String)
    (buyerPoints : ℤ) (f : PurchaseFaults) : PurchaseResult × Store :=
  if listing.sellerId == buyerId then
    (.notOwnListing, s)
  else if buyerPoints < listing.pricePoints then
    (.insufficientFunds, s)
  else if f.orderInsertFails then
    (.purchaseFailed, s)
  else
    let s1 : Store :=
      { s with orders := s.orders ++
          [⟨listing.id, buyerId, listing.sellerId, listing.pricePoints,
            .pending⟩] }
    if f.listingUpdateFails then
      (.purchaseFailed, s1)
    else
      let s2 : Store :=
        { s1 with listings := updateListingStatus s1.listings listing.id .sold }
      if f.buyerUpdateFails then
        (.purchaseFailed, s2)
      else
        let buyerNewPoints := buyerPoints - listing.pricePoints
        let s3 : Store :=
          { s2 with profiles := updateProfilePoints s2.profiles buyerId buyerNewPoints }
        let s4 : Store :=
          if f.sellerSelectFails then s3
          else
            match lookupProfile s3.profiles listing.sellerId with
            | none => s3
            | some sp =>
                if f.sellerUpdateFails then s3
                else
                  let sellerNewPoints := sp.total_points + listing.pricePoints
                  { s3 with profiles := updateProfilePoints s3.profiles listing.sellerId sellerNewPoints }
        let s5 : Store :=
          if f.notifInsertFails then s4
          else
            { s4 with notifications := s4.notifications ++
                [⟨some listing.sellerId, "Your item sold!"⟩] }
        let s6 : Store :=
          if f.messageInsertFails then s5
          else
            { s5 with messages := s5.messages ++
                [⟨buyerId, listing.sellerId, listing.id⟩] }
        (.success, s6)

/-- UPDATE scan_history SET status = st WHERE id = sid. -/
def updateScanStatus (rs : List ScanRow) (sid : String) (st : ScanStatus) :
    List ScanRow :=
  rs.map (fun r => if r.id == sid then { r with status := st } else r)

/-- Which remote calls of the admin scan review handlers fail. A denied
update or insert surfaces as zero rows affected (the RLS situation the
source's Chinese error strings describe) and is thrown; the profile select
has its error discarded, so its failure silently skips the credit. -/
structure ApproveFaults where
  scanUpdateDenied : Bool
  listingSelectFails : Bool
  listingInsertDenied : Bool
  profileSelectFails : Bool
  profileUpdateDenied : Bool
  notifInsertDenied : Bool
deriving DecidableEq, Repr

/-- The admin review execution with every remote call succeeding. -/
def approveHappy : ApproveFaults := ⟨false, false, false, false, false, false⟩

/-- The catch-block rollback of the scan review handlers: best-effort
UPDATE scan_history SET status = 'pending' WHERE id = scan.id. Only the
scan status is reverted; no other write is compensated. -/
def rollbackScan (s : Store) (sid : String) : Store :=
  { s with scans := updateScanStatus s.scans sid .pending }

/-- The draft listing handleApprove inserts for a trade scan that has no
listing yet (step 1.5 of PendingScansTab.handleApprove). -/
def tradeDraftListing (scan : ScanRow) : Listing :=
  { id := "draft-" ++ scan.id, sellerId := scan.user_id,
    scanId := some scan.id, title := scan.item_name,
    category := scan.category, pricePoints := scan.final_points,
    status := .draft }

/-- handleApprove in PendingScansTab (the admin ReviewQueue for scans).
Step 1 sets the scan approved, matching rows by id alone — there is no
condition on the current status. Step 1.5 ensures a trade scan has a
listing. Step 2 reads the profile (error discarded) and, when a row comes
back, credits final_points, recomputes the level and bumps items_recycled.
Step 3 inserts a notification. Any thrown step after step 1 rolls the scan
status back to pending; nothing else is compensated. -/
def handleApprove (s : Store) (scan : ScanRow) (f : ApproveFaults) :
    Bool × Store :=
  if f.scanUpdateDenied || (s.scans.filter (fun r => r.id == scan.id)).isEmpty then
    (false, s)
  else
    let s1 : Store := { s with scans := updateScanStatus s.scans scan.id .approved }
    let tradeStep : Option Store :=
      if scan.disposal_choice == some .trade then
        if f.listingSelectFails then none
        else
          match s1.listings.find? (fun l => l.scanId == some scan.id) with
          | some _ => some s1
          | none =>
              if f.listingInsertDenied then none
              else some { s1 with listings := s1.listings ++ [tradeDraftListing scan] }
      else some s1
    match tradeStep with
    | none => (false, rollbackScan s1 scan.id)
    | some s2 =>
        let profile : Option Profile :=
          if f.profileSelectFails then none
          else lookupProfile s2.profiles scan.user_id
        let creditStep : Option Store :=
          match profile with
          | none => some s2
          | some p =>
              if f.profileUpdateDenied then none
              else
                let newPoints := p.total_points + scan.final_points
                let newLevel := Int.fdiv newPoints 100 + 1
                some { s2 with profiles := s2.profiles.map (fun q =>
                  if q.id == scan.user_id then
                    { q with total_points := newPoints, level := newLevel,
                             items_recycled := q.items_recycled + 1 }
                  else q) }
        match creditStep with
        | none => (false, rollbackScan s2 scan.id)
        | some s3 =>
            if f.notifInsertDenied then (false, rollbackScan s3 scan.id)
            else
              (true, { s3 with notifications := s3.notifications ++
                [⟨some scan.user_id, "Scan Approved!"⟩] })

/-- handleReject in PendingScansTab: sets the scan rejected (again matching
by id alone), then inserts a notification; a failed notification insert
rolls the scan status back to pending. -/
def handleReject (s : Store) (scan : ScanRow) (f : ApproveFaults) :
    Bool × Store :=
  if f.scanUpdateDenied || (s.scans.filter (fun r => r.id == scan.id)).isEmpty then
    (false, s)
  else
    let s1 : Store := { s with scans := updateScanStatus s.scans scan.id .rejected }
    if f.notifInsertDenied then (false, rollbackScan s1 scan.id)
    else
      (true, { s1 with notifications := s1.notifications ++
        [⟨some scan.user_id, "Scan Rejected"⟩] })

/-- Which remote calls of the admin listing review handlers fail. -/
structure ListingFaults where
  listingUpdateDenied : Bool
  notifInsertDenied : Bool
deriving DecidableEq, Repr

/-- The listing review execution with every remote call succeeding. -/
def listingHappy : ListingFaults := ⟨false, false⟩

/-- handleApprove in PendingListingsTab.tsx: sets the listing active,
matching rows by id alone — no condition on the current status — then
notifies the seller; a failed notification insert rolls the listing status
back to pending_review. -/
def listingApprove (s : Store) (listing : Listing) (f : ListingFaults) :
    Bool × Store :=
  if f.listingUpdateDenied
      || (s.listings.filter (fun l => l.id == listing.id)).isEmpty then
    (false, s)
  else
    let s1 : Store :=
      { s with listings := updateListingStatus s.listings listing.id .active }
    if f.notifInsertDenied then
      (false, { s1 with listings := updateListingStatus s1.listings listing.id .pending_review })
    else
      (true, { s1 with notifications := s1.notifications ++
        [⟨some listing.sellerId, "Listing Approved!"⟩] })

/-- handleReject in PendingListingsTab.tsx: sets the listing cancelled,
matching rows by id alone, then notifies the seller; a failed notification
insert rolls the listing status back to pending_review. -/
def listingReject (s : Store) (listing : Listing) (f : ListingFaults) :
    Bool × Store :=
  if f.listingUpdateDenied
      || (s.listings.filter (fun l => l.id == listing.id)).isEmpty then
    (false, s)
  else
    let s1 : Store :=
      { s with listings := updateListingStatus s.listings listing.id .cancelled }
    if f.notifInsertDenied then
      (false, { s1 with listings := updateListingStatus s1.listings listing.id .pending_review })
    else
      (true, { s1 with notifications := s1.notifications ++
        [⟨some listing.sellerId, "Listing Rejected"⟩] })

/-- The guest stats blob stored in localStorage under ecoscan_guest_stats
(the fields migrateGuestData reads). -/
structure GuestStats where
  totalPoints : ℤ
  level : ℤ
  streak : ℤ
  itemsRecycled : ℤ
deriving DecidableEq, Repr

/-- One item of the guest scan history blob stored in localStorage. -/
structure GuestHistoryItem where
  name : String
  category : WasteCategory
  points : ℤ
deriving DecidableEq, Repr

/-- The device-local guest store for one deviceId: the two localStorage
keys, each present or absent. -/
structure LocalStore where
  stats : Option GuestStats
  history : Option (List GuestHistoryItem)
deriving DecidableEq, Repr

/-- The scan_history row inserted by migrateGuestData: the insert supplies
user_id, item_name, category, points and scanned_at only; status and the
point columns take the reading defaults (pending, base = final = points). -/
def guestItemToRow (userId : String) (it : GuestHistoryItem) : ScanRow :=
  { id := "guest-" ++ it.name, user_id := userId, item_name := it.name,
    category := it.category, base_points := it.points,
    final_points := it.points, status := .pending, disposal_choice := none }

/-- migrateGuestData in the Auth page. If guest stats exist they OVERWRITE
the profile's total_points/level/streak/items_recycled (no addition); if a
guest history exists its items are bulk-inserted; then both localStorage
keys are removed and true is returned. -/
def migrateGuestData (store : LocalStore) (s : Store) (userId : String) :
    Bool × LocalStore × Store :=
  let s1 : Store :=
    match store.stats with
    | none => s
    | some gs =>
        { s with profiles := s.profiles.map (fun p =>
            if p.id == userId then
              { p with total_points := gs.totalPoints, level := gs.level,
                       streak := gs.streak,
                       items_recycled := gs.itemsRecycled }
            else p) }
  let s2 : Store :=
    match store.history with
    | none => s1
    | some h =>
        if h.length > 0 then
          { s1 with scans := s1.scans ++ h.map (guestItemToRow userId) }
        else s1
  (true, ⟨none, none⟩, s2)

/-- The action union of the check-listing-compliance edge function. -/
inductive ComplianceAction
  | auto_approve
  | needs_review
  | auto_reject
deriving DecidableEq, Repr

/-- The JSON the edge function returns. -/
structure ComplianceResponse where
  riskScore : ℤ
  violations : List String
  action : ComplianceAction
deriving DecidableEq, Repr

/-- The raw result assembled from an AI reply before normalization:
riskScore as parseInt sees it (none models NaN), and the violations
field if it is an array. -/
structure RawComplianceResult where
  riskScore : Option ℤ
  violations : Option (List String)
deriving DecidableEq, Repr

/-- parseInt(result.riskScore) || 2 : NaN and 0 both give 2. -/
def jsParseIntOr2 : Option ℤ → ℤ
  | none => 2
  | some 0 => 2
  | some n => n

/-- Math.min(10, Math.max(1, n)). -/
def clampScore (n : ℤ) : ℤ := min 10 (max 1 n)

/-- The action ladder of the edge function: < 7 auto_approve, <= 8
needs_review, otherwise auto_reject. -/
def actionForScore (score : ℤ) : ComplianceAction :=
  if score < 7 then .auto_approve
  else if score ≤ 8 then .needs_review
  else .auto_reject

/-- combinedText.includes(word), via splitOn (wc occurs iff splitting on it
produces more than one piece; the prohibited words are all non-empty). -/
def strIncludes (s w : String) : Bool := (s.splitOn w).length > 1

/-- The local heuristic used when no AI result is available: keyword match
against the prohibited-terms list, riskScore 7 when a term occurs, else 2. -/
def fallbackHeuristic (title description : String) : RawComplianceResult :=
  let combinedText := title.toLower ++ " " ++ description.toLower
  let badWords := ["weapon", "gun", "drug", "stolen", "fake", "counterfeit"]
  let hasBadWords := badWords.any (fun w => strIncludes combinedText w)
  { riskScore := some (if hasBadWords then 7 else 2),
    violations := some (if hasBadWords then ["Potential policy violation detected"] else []) }

/-- The fail-open response of the outer catch block. -/
def failOpenResponse : ComplianceResponse :=
  { riskScore := 2, violations := [], action := .auto_approve }

/-- The check-listing-compliance serve handler. bodyOk is false when
anything inside the try block throws (e.g. an unreadable request body);
aiResult is the parsed AI reply when one of the two AI calls produced one,
none when both were unavailable (then the local heuristic runs). -/
def complianceCheck (bodyOk : Bool) (aiResult : Option RawComplianceResult)
    (title description : String) : ComplianceResponse :=
  if bodyOk = false then failOpenResponse
  else
    let result := aiResult.getD (fallbackHeuristic title description)
    let riskScore := clampScore (jsParseIntOr2 result.riskScore)
    { riskScore := riskScore, violations := result.violations.getD [],
      action := actionForScore riskScore }

/-! Helper lemmas about the row-update combinators. -/

/-- Finding a profile after an id-preserving map is finding it before and
then applying the map function. -/
theorem lookupProfile_map_of_id (ps : List Profile) (uid : String)
    (g : Profile → Profile) (hid : ∀ p, (g p).id = p.id) :
    lookupProfile (ps.map g) uid = (lookupProfile ps uid).map g := by
  unfold lookupProfile
  rw [List.find?_map]
  have hpred : ((fun p : Profile => p.id == uid) ∘ g)
      = fun p : Profile => p.id == uid := by
    funext p
    simp [Function.comp, hid]
  rw [hpred]

/-- lookupProfile after updateProfilePoints at the same id. -/
theorem lookupProfile_updatePoints_self (ps : List Profile) (uid : String)
    (pts : ℤ) :
    lookupProfile (updateProfilePoints ps uid pts) uid
      = (lookupProfile ps uid).map (fun p => { p with total_points := pts }) := by
  unfold updateProfilePoints
  rw [lookupProfile_map_of_id ps uid _ (fun p => by
    by_cases h : p.id == uid <;> simp [h])]
  cases hf : lookupProfile ps uid with
  | none => rfl
  | some e =>
      rw [lookupProfile] at hf
      have he := List.find?_some hf
      have heq : e.id = uid := by simpa [beq_iff_eq] using he
      simp [heq]

/-- lookupProfile at a different id is untouched by updateProfilePoints. -/
theorem lookupProfile_updatePoints_ne (ps : List Profile) (uid uid' : String)
    (pts : ℤ) (h : uid ≠ uid') :
    lookupProfile (updateProfilePoints ps uid' pts) uid
      = lookupProfile ps uid := by
  unfold updateProfilePoints
  rw [lookupProfile_map_of_id ps uid _ (fun p => by
    by_cases hp : p.id == uid' <;> simp [hp])]
  cases hf : lookupProfile ps uid with
  | none => rfl
  | some e =>
      rw [lookupProfile] at hf
      have he := List.find?_some hf
      have hne : e.id ≠ uid' := by
        have : e.id = uid := by simpa [beq_iff_eq] using he
        simpa [this] using h
      simp [hne]

/-- Every row of an updated listing list that carries the updated id has
the new status. -/
theorem updateListingStatus_status (ls : List Listing) (lid : String)
    (st : ListingStatus) :
    ∀ l ∈ updateListingStatus ls lid st, l.id = lid → l.status = st := by
  intro l hl hlid
  unfold updateListingStatus at hl
  obtain ⟨l0, _, rfl⟩ := List.mem_map.mp hl
  by_cases h : l0.id == lid
  · simp [h]
  · simp [h] at hlid ⊢
    exact absurd hlid (by simpa [beq_iff_eq] using h)

/-- The updated copy of a member listing is a member of the updated list. -/
theorem updateListingStatus_mem (ls : List Listing) (l : Listing)
    (st : ListingStatus) (hl : l ∈ ls) :
    { l with status := st } ∈ updateListingStatus ls l.id st := by
  unfold updateListingStatus
  refine List.mem_map.mpr ⟨l, hl, ?_⟩
  simp

/-- updateProfilePoints does not change any level field. -/
theorem updateProfilePoints_map_level (ps : List Profile) (uid : String)
    (pts : ℤ) :
    (updateProfilePoints ps uid pts).map Profile.level = ps.map Profile.level := by
  unfold updateProfilePoints
  rw [List.map_map]
  congr 1
  funext p
  simp only [Function.comp]
  split <;> rfl

/-- No multiplier in the category table is zero (so the || 1 fallback of
the source never rewrites a configured multiplier). -/
theorem categoryChoices_mult_ne_zero :
    ∀ cat : WasteCategory, ∀ cfg ∈ categoryChoices cat,
      cfg.pointsMultiplierTenths ≠ 0 := by
  intro cat cfg h
  cases cat <;> fin_cases h <;> decide

/-- Claim C1: the source never rejects discard on a hazardous record. The
category table offers no discard entry for hazardous, yet applying discard
to a hazardous scan with basePoints 10 sets status approved with multiplier
1 and credits the 10 points immediately — there is no InvalidDisposalChoice
failure anywhere on this path. -/
theorem hazardous_discard_auto_approves :
    (categoryChoices .hazardous).find? (fun c => c.value == .discard) = none
    ∧ (handleDisposalChoice ⟨"battery", .hazardous, 10, 10, 10, .pending, none⟩
        ⟨0, 1, 0, 0, 0, 0⟩ .discard).item.status = .approved
    ∧ (handleDisposalChoice ⟨"battery", .hazardous, 10, 10, 10, .pending, none⟩
        ⟨0, 1, 0, 0, 0, 0⟩ .discard).item.finalPoints = 10
    ∧ (handleDisposalChoice ⟨"battery", .hazardous, 10, 10, 10, .pending, none⟩
        ⟨0, 1, 0, 0, 0, 0⟩ .discard).stats.totalPoints = 10 := by
  decide

/-- Claim C7: for every disposal choice offered for a category, applying
the choice computes finalPoints = round(basePoints × multiplier) with the
multiplier coming from the fixed table (stated via the exact floor form of
Math.round; the multiplier is cfg.pointsMultiplierTenths / 10), and the
table carries the cited fixed values. The computation is a pure function of
the item and the choice. -/
theorem multiplier_spec (item : ScanItem) (stats : UserStats)
    (choice : DisposalChoice) (cfg : ChoiceConfig)
    (hfind : (categoryChoices item.category).find?
      (fun c => c.value == choice) = some cfg) :
    (handleDisposalChoice item stats choice).item.finalPoints
      = ⌊(item.basePoints : ℚ) * ((cfg.pointsMultiplierTenths : ℚ) / 10) + 1 / 2⌋
    ∧ lookupMultiplier .clothing .donate = 20
    ∧ lookupMultiplier .clothing .trade = 18
    ∧ lookupMultiplier .clothing .discard = 10
    ∧ lookupMultiplier .electronics .trade = 20
    ∧ lookupMultiplier .electronics .recycle = 15
    ∧ lookupMultiplier .electronics .discard = 5
    ∧ lookupMultiplier .compost .recycle = 15
    ∧ lookupMultiplier .recyclable .trade = 15
    ∧ lookupMultiplier .hazardous .special = 20 := by
  have hmem := List.mem_of_find?_eq_some hfind
  have hnz := categoryChoices_mult_ne_zero item.category cfg hmem
  refine ⟨?_, by decide, by decide, by decide, by decide, by decide,
    by decide, by decide, by decide, by decide⟩
  have hmul : lookupMultiplier item.category choice = cfg.pointsMultiplierTenths := by
    rw [lookupMultiplier, hfind]
    simp [hnz]
  have hfp : (handleDisposalChoice item stats choice).item.finalPoints
      = jsRoundTimesTenths item.basePoints (lookupMultiplier item.category choice) := rfl
  rw [hfp, hmul, jsRoundTimesTenths_eq_floor]

/-- Witness for multiplier_spec: a clothing item with basePoints 10 and
choice donate (table entry donate with 20 tenths). -/
theorem multiplier_spec_witness :
    (handleDisposalChoice ⟨"shirt", .clothing, 10, 10, 10, .pending, none⟩
        ⟨0, 1, 0, 0, 0, 0⟩ .donate).item.finalPoints
      = ⌊((10 : ℤ) : ℚ) * (((20 : ℤ) : ℚ) / 10) + 1 / 2⌋
    ∧ lookupMultiplier .clothing .donate = 20
    ∧ lookupMultiplier .clothing .trade = 18
    ∧ lookupMultiplier .clothing .discard = 10
    ∧ lookupMultiplier .electronics .trade = 20
    ∧ lookupMultiplier .electronics .recycle = 15
    ∧ lookupMultiplier .electronics .discard = 5
    ∧ lookupMultiplier .compost .recycle = 15
    ∧ lookupMultiplier .recyclable .trade = 15
    ∧ lookupMultiplier .hazardous .special = 20 :=
  multiplier_spec ⟨"shirt", .clothing, 10, 10, 10, .pending, none⟩
    ⟨0, 1, 0, 0, 0, 0⟩ .donate ⟨.donate, 20, true⟩ (by decide)

/-- Claim C9: a non-retry classification result of category other is
persisted immediately as approved with finalPoints = basePoints = the
classified points, the stats are credited those points and itemsRecycled
is bumped; a result of a category that requires a choice yields an item in
pending and leaves the stats (in particular totalPoints) untouched. -/
theorem scan_initial_spec (result : ClassificationResult) (stats : UserStats)
    (history : List ScanItem) (hretry : result.isRetry = false) :
    (result.category = .other →
      (scanWithImage result stats history).item.status = .approved
      ∧ (scanWithImage result stats history).item.finalPoints = result.points
      ∧ (scanWithImage result stats history).item.basePoints = result.points
      ∧ (scanWithImage result stats history).persisted = true
      ∧ (scanWithImage result stats history).stats.totalPoints
          = stats.totalPoints + result.points
      ∧ (scanWithImage result stats history).stats.itemsRecycled
          = stats.itemsRecycled + 1)
    ∧ (categoryNeedsChoice result.category = true →
      (scanWithImage result stats history).item.status = .pending
      ∧ (scanWithImage result stats history).persisted = false
      ∧ (scanWithImage result stats history).stats = stats) := by
  constructor
  · intro hcat
    simp [scanWithImage, hretry, hcat, categoryNeedsChoice]
  · intro hneeds
    have hcat : result.category ≠ .other := by
      intro hc
      rw [hc] at hneeds
      exact absurd hneeds (by decide)
    simp [scanWithImage, hretry, hneeds, hcat]

/-- Witness for scan_initial_spec: an other item with 8 points is approved
and credited; a clothing item is pending with stats untouched. -/
theorem scan_initial_spec_witness :
    ((scanWithImage ⟨"bag", .other, 8, false⟩ ⟨0, 1, 0, 0, 0, 0⟩ []).item.status
        = .approved
      ∧ (scanWithImage ⟨"bag", .other, 8, false⟩ ⟨0, 1, 0, 0, 0, 0⟩ []).stats.totalPoints
        = 0 + 8)
    ∧ ((scanWithImage ⟨"shirt", .clothing, 10, false⟩ ⟨0, 1, 0, 0, 0, 0⟩ []).item.status
        = .pending
      ∧ (scanWithImage ⟨"shirt", .clothing, 10, false⟩ ⟨0, 1, 0, 0, 0, 0⟩ []).stats
        = ⟨0, 1, 0, 0, 0, 0⟩) := by
  have h1 := scan_initial_spec ⟨"bag", .other, 8, false⟩ ⟨0, 1, 0, 0, 0, 0⟩ [] rfl
  have h2 := scan_initial_spec ⟨"shirt", .clothing, 10, false⟩ ⟨0, 1, 0, 0, 0, 0⟩ [] rfl
  have ha := h1.1 rfl
  have hb := h2.2 (by decide)
  exact ⟨⟨ha.1, ha.2.2.2.2.1⟩, ⟨hb.1, hb.2.2⟩⟩

/-- Bounds of the clamp applied to the AI risk score. -/
theorem clampScore_bounds (n : ℤ) : 1 ≤ clampScore n ∧ clampScore n ≤ 10 :=
  ⟨le_min (by norm_num) (le_max_left 1 n), min_le_left 10 (max 1 n)⟩

/-- The action ladder is a total function of the score. -/
theorem actionForScore_spec (sc : ℤ) :
    (actionForScore sc = .auto_approve ↔ sc < 7)
    ∧ (actionForScore sc = .needs_review ↔ (7 ≤ sc ∧ sc ≤ 8))
    ∧ (actionForScore sc = .auto_reject ↔ 8 < sc) := by
  unfold actionForScore
  split_ifs with h1 h2 <;> refine ⟨?_, ?_, ?_⟩ <;> (simp_all; try omega)

/-- Claim C10: the compliance handler always returns a riskScore in [1,10],
the action is a total function of that score (auto_approve iff score < 7,
needs_review iff 7 ≤ score ≤ 8, auto_reject iff score > 8), and an internal
failure of the try block fails open with riskScore 2 and auto_approve. -/
theorem compliance_spec (bodyOk : Bool) (aiResult : Option RawComplianceResult)
    (title description : String) :
    (1 ≤ (complianceCheck bodyOk aiResult title description).riskScore
      ∧ (complianceCheck bodyOk aiResult title description).riskScore ≤ 10)
    ∧ ((complianceCheck bodyOk aiResult title description).action = .auto_approve
        ↔ (complianceCheck bodyOk aiResult title description).riskScore < 7)
    ∧ ((complianceCheck bodyOk aiResult title description).action = .needs_review
        ↔ (7 ≤ (complianceCheck bodyOk aiResult title description).riskScore
          ∧ (complianceCheck bodyOk aiResult title description).riskScore ≤ 8))
    ∧ ((complianceCheck bodyOk aiResult title description).action = .auto_reject
        ↔ 8 < (complianceCheck bodyOk aiResult title description).riskScore)
    ∧ (bodyOk = false →
        complianceCheck bodyOk aiResult title description = failOpenResponse) := by
  cases bodyOk with
  | false =>
      simp only [complianceCheck, if_pos rfl]
      refine ⟨⟨by simp [failOpenResponse], by simp [failOpenResponse]⟩,
        ?_, ?_, ?_, fun _ => rfl⟩ <;> simp [failOpenResponse]
  | true =>
      simp only [complianceCheck, if_neg (by decide : ¬(true = false))]
      have hb := clampScore_bounds (jsParseIntOr2
        (aiResult.getD (fallbackHeuristic title description)).riskScore)
      have ha := actionForScore_spec (clampScore (jsParseIntOr2
        (aiResult.getD (fallbackHeuristic title description)).riskScore))
      exact ⟨hb, ha.1, ha.2.1, ha.2.2, fun h => absurd h (by decide)⟩

/-- Witness for compliance_spec: the fail-open path at a concrete input. -/
theorem compliance_spec_witness :
    complianceCheck false none "old phone" "works fine" = failOpenResponse
    ∧ 1 ≤ (complianceCheck false none "old phone" "works fine").riskScore := by
  have h := compliance_spec false none "old phone" "works fine"
  exact ⟨h.2.2.2.2 rfl, h.1.1⟩

/-- Claim C8: after one migrateGuestData run the local guest store is
cleared, the guest stats were merged into the profile by overwrite (not
addition), and running migrateGuestData again on the resulting state is a
no-op: it returns true and changes nothing (in particular it inserts no
scan rows and credits no points). -/
theorem migrate_idempotent_spec (ls : LocalStore) (s : Store) (uid : String)
    (gs : GuestStats) (hstats : ls.stats = some gs) :
    (migrateGuestData ls s uid).2.1 = ⟨none, none⟩
    ∧ (migrateGuestData ls s uid).1 = true
    ∧ migrateGuestData (migrateGuestData ls s uid).2.1
        (migrateGuestData ls s uid).2.2 uid
      = (true, (migrateGuestData ls s uid).2.1, (migrateGuestData ls s uid).2.2)
    ∧ (∀ p ∈ (migrateGuestData ls s uid).2.2.profiles, p.id = uid →
        p.total_points = gs.totalPoints ∧ p.level = gs.level
        ∧ p.streak = gs.streak ∧ p.items_recycled = gs.itemsRecycled) := by
  refine ⟨rfl, rfl, rfl, ?_⟩
  intro p hp hid
  have hprof : (migrateGuestData ls s uid).2.2.profiles
      = s.profiles.map (fun q =>
          if q.id == uid then
            { q with total_points := gs.totalPoints, level := gs.level,
                     streak := gs.streak, items_recycled := gs.itemsRecycled }
          else q) := by
    unfold migrateGuestData
    rw [hstats]
    cases ls.history with
    | none => rfl
    | some h =>
        by_cases hl : h.length > 0 <;> simp [hl]
  rw [hprof] at hp
  obtain ⟨q, _, rfl⟩ := List.mem_map.mp hp
  by_cases hq : q.id == uid
  · simp [hq]
  · simp [hq] at hid
    exact absurd hid (by simpa [beq_iff_eq] using hq)

/-- Witness for migrate_idempotent_spec: a device with 42 guest points and
one guest scan migrating into account u. -/
theorem migrate_idempotent_spec_witness :
    (migrateGuestData
        ⟨some ⟨42, 1, 3, 5⟩, some [⟨"cup", WasteCategory.other, 5⟩]⟩
        ⟨[], [], [], [⟨"u", 0, 1, 0, 0, none⟩], [], []⟩ "u").2.1 = ⟨none, none⟩
    ∧ migrateGuestData
        (migrateGuestData
          ⟨some ⟨42, 1, 3, 5⟩, some [⟨"cup", WasteCategory.other, 5⟩]⟩
          ⟨[], [], [], [⟨"u", 0, 1, 0, 0, none⟩], [], []⟩ "u").2.1
        (migrateGuestData
          ⟨some ⟨42, 1, 3, 5⟩, some [⟨"cup", WasteCategory.other, 5⟩]⟩
          ⟨[], [], [], [⟨"u", 0, 1, 0, 0, none⟩], [], []⟩ "u").2.2 "u"
      = (true,
          (migrateGuestData
            ⟨some ⟨42, 1, 3, 5⟩, some [⟨"cup", WasteCategory.other, 5⟩]⟩
            ⟨[], [], [], [⟨"u", 0, 1, 0, 0, none⟩], [], []⟩ "u").2.1,
          (migrateGuestData
            ⟨some ⟨42, 1, 3, 5⟩, some [⟨"cup", WasteCategory.other, 5⟩]⟩
            ⟨[], [], [], [⟨"u", 0, 1, 0, 0, none⟩], [], []⟩ "u").2.2) := by
  have h := migrate_idempotent_spec
    ⟨some ⟨42, 1, 3, 5⟩, some [⟨"cup", WasteCategory.other, 5⟩]⟩
    ⟨[], [], [], [⟨"u", 0, 1, 0, 0, none⟩], [], []⟩ "u" ⟨42, 1, 3, 5⟩ rfl
  exact ⟨h.1, h.2.2.1⟩

/-- The happy-path run of purchaseListing with no failing call, spelled as
one state equality: order appended in pending, listing set sold, buyer row
set to buyerPoints - price, seller row set to its balance + price,
notification and message appended. -/
theorem purchaseListing_noFaults_run (s : Store) (listing : Listing)
    (buyerId : String) (buyerPoints : ℤ) (sp : Profile)
    (hne : listing.sellerId ≠ buyerId)
    (hfunds : listing.pricePoints ≤ buyerPoints)
    (hsp : lookupProfile s.profiles listing.sellerId = some sp) :
    purchaseListing s listing buyerId buyerPoints noFaults
      = (.success, { s with
          orders := s.orders ++
            [⟨listing.id, buyerId, listing.sellerId, listing.pricePoints, .pending⟩],
          listings := updateListingStatus s.listings listing.id .sold,
          profiles := updateProfilePoints
            (updateProfilePoints s.profiles buyerId
              (buyerPoints - listing.pricePoints))
            listing.sellerId (sp.total_points + listing.pricePoints),
          notifications := s.notifications ++ [⟨some listing.sellerId, "Your item sold!"⟩],
          messages := s.messages ++ [⟨buyerId, listing.sellerId, listing.id⟩] }) := by
  have h1 : (listing.sellerId == buyerId) = false := by
    simpa [beq_iff_eq] using hne
  have h2 : ¬(buyerPoints < listing.pricePoints) := not_lt.mpr hfunds
  have hs3 : lookupProfile (updateProfilePoints s.profiles buyerId
      (buyerPoints - listing.pricePoints)) listing.sellerId = some sp := by
    rw [lookupProfile_updatePoints_ne _ _ _ _ hne]
    exact hsp
  simp only [purchaseListing, noFaults, h1, Bool.false_eq_true, if_false,
    if_neg h2]
  simp only [hs3]

/-- Claim C2, amended: after a fault-free purchase with the preconditions
satisfied, the buyer is debited exactly the price, the seller is credited
exactly the price (so the sum of the two balances is conserved), every
listing row with the listing's id is sold, and exactly one order exists for
the listing — but that order is left in status pending; purchaseListing
never marks it completed. -/
theorem purchase_success_spec (s : Store) (listing : Listing)
    (buyerId : String) (buyerPoints : ℤ) (bp sp : Profile)
    (hne : listing.sellerId ≠ buyerId)
    (hfunds : listing.pricePoints ≤ buyerPoints)
    (hbp : lookupProfile s.profiles buyerId = some bp)
    (hbpts : bp.total_points = buyerPoints)
    (hsp : lookupProfile s.profiles listing.sellerId = some sp)
    (hmem : listing ∈ s.listings)
    (horders : s.orders.filter (fun o => o.listingId == listing.id) = []) :
    (purchaseListing s listing buyerId buyerPoints noFaults).1 = .success
    ∧ lookupProfile (purchaseListing s listing buyerId buyerPoints noFaults).2.profiles
        buyerId = some { bp with total_points := bp.total_points - listing.pricePoints }
    ∧ lookupProfile (purchaseListing s listing buyerId buyerPoints noFaults).2.profiles
        listing.sellerId
        = some { sp with total_points := sp.total_points + listing.pricePoints }
    ∧ (bp.total_points - listing.pricePoints)
        + (sp.total_points + listing.pricePoints)
        = bp.total_points + sp.total_points
    ∧ { listing with status := ListingStatus.sold }
        ∈ (purchaseListing s listing buyerId buyerPoints noFaults).2.listings
    ∧ (∀ l ∈ (purchaseListing s listing buyerId buyerPoints noFaults).2.listings,
        l.id = listing.id → l.status = .sold)
    ∧ (purchaseListing s listing buyerId buyerPoints noFaults).2.orders.filter
        (fun o => o.listingId == listing.id)
      = [⟨listing.id, buyerId, listing.sellerId, listing.pricePoints,
          OrderStatus.pending⟩] := by
  rw [purchaseListing_noFaults_run s listing buyerId buyerPoints sp hne hfunds hsp]
  refine ⟨rfl, ?_, ?_, by ring, ?_, ?_, ?_⟩
  · show lookupProfile (updateProfilePoints
        (updateProfilePoints s.profiles buyerId (buyerPoints - listing.pricePoints))
        listing.sellerId (sp.total_points + listing.pricePoints)) buyerId = _
    rw [lookupProfile_updatePoints_ne _ _ _ _ (Ne.symm hne),
      lookupProfile_updatePoints_self, hbp]
    simp [hbpts]
  · show lookupProfile (updateProfilePoints
        (updateProfilePoints s.profiles buyerId (buyerPoints - listing.pricePoints))
        listing.sellerId (sp.total_points + listing.pricePoints)) listing.sellerId = _
    rw [lookupProfile_updatePoints_self,
      lookupProfile_updatePoints_ne _ _ _ _ hne, hsp]
    simp
  · exact updateListingStatus_mem s.listings listing .sold hmem
  · exact updateListingStatus_status s.listings listing.id .sold
  · show (s.orders ++ [(⟨listing.id, buyerId, listing.sellerId,
        listing.pricePoints, OrderStatus.pending⟩ : Order)]).filter
        (fun o : Order => o.listingId == listing.id)
      = [(⟨listing.id, buyerId, listing.sellerId, listing.pricePoints,
          OrderStatus.pending⟩ : Order)]
    rw [List.filter_append, horders]
    simp

/-- Witness for purchase_success_spec: buyer b with 100 points buys the
40-point active listing l1 of seller a (who holds 7 points). -/
theorem purchase_success_spec_witness :
    (purchaseListing
      ⟨[], [⟨"l1", "a", none, "Lamp", .recyclable, 40, .active⟩], [],
        [⟨"a", 7, 1, 0, 0, none⟩, ⟨"b", 100, 1, 0, 0, none⟩], [], []⟩
      ⟨"l1", "a", none, "Lamp", .recyclable, 40, .active⟩ "b" 100 noFaults).1
      = .success
    ∧ lookupProfile (purchaseListing
        ⟨[], [⟨"l1", "a", none, "Lamp", .recyclable, 40, .active⟩], [],
          [⟨"a", 7, 1, 0, 0, none⟩, ⟨"b", 100, 1, 0, 0, none⟩], [], []⟩
        ⟨"l1", "a", none, "Lamp", .recyclable, 40, .active⟩ "b" 100 noFaults).2.profiles
        "b" = some ⟨"b", 60, 1, 0, 0, none⟩
    ∧ lookupProfile (purchaseListing
        ⟨[], [⟨"l1", "a", none, "Lamp", .recyclable, 40, .active⟩], [],
          [⟨"a", 7, 1, 0, 0, none⟩, ⟨"b", 100, 1, 0, 0, none⟩], [], []⟩
        ⟨"l1", "a", none, "Lamp", .recyclable, 40, .active⟩ "b" 100 noFaults).2.profiles
        "a" = some ⟨"a", 47, 1, 0, 0, none⟩ := by
  have h := purchase_success_spec
    ⟨[], [⟨"l1", "a", none, "Lamp", .recyclable, 40, .active⟩], [],
      [⟨"a", 7, 1, 0, 0, none⟩, ⟨"b", 100, 1, 0, 0, none⟩], [], []⟩
    ⟨"l1", "a", none, "Lamp", .recyclable, 40, .active⟩ "b" 100
    ⟨"b", 100, 1, 0, 0, none⟩ ⟨"a", 7, 1, 0, 0, none⟩
    (by decide) (by decide) (by decide) rfl (by decide) (by decide) (by decide)
  exact ⟨h.1, h.2.1, h.2.2.1⟩

/-- Claim C2 counterexample: after a successful purchase the only order for
the listing is left in status pending — it is never marked completed, so
the claim's final step does not hold on the code. -/
theorem purchase_order_never_completed :
    (purchaseListing
      ⟨[], [⟨"l1", "a", none, "Lamp", .recyclable, 40, .active⟩], [],
        [⟨"a", 7, 1, 0, 0, none⟩, ⟨"b", 100, 1, 0, 0, none⟩], [], []⟩
      ⟨"l1", "a", none, "Lamp", .recyclable, 40, .active⟩ "b" 100 noFaults).1
      = .success
    ∧ (purchaseListing
        ⟨[], [⟨"l1", "a", none, "Lamp", .recyclable, 40, .active⟩], [],
          [⟨"a", 7, 1, 0, 0, none⟩, ⟨"b", 100, 1, 0, 0, none⟩], [], []⟩
        ⟨"l1", "a", none, "Lamp", .recyclable, 40, .active⟩ "b" 100 noFaults).2.orders
      = [⟨"l1", "b", "a", 40, OrderStatus.pending⟩]
    ∧ OrderStatus.pending ≠ OrderStatus.completed := by
  decide

/-- Claim C3, amended: purchaseListing checks exactly two preconditions.
Buying an own listing aborts with the not-own-listing outcome and no write;
insufficient funds aborts with the insufficient-funds outcome and no write.
There is no check of listing.status at all, so no ListingUnavailable-style
abort exists on this path. -/
theorem purchase_precondition_spec (s : Store) (listing : Listing)
    (buyerId : String) (buyerPoints : ℤ) (f : PurchaseFaults) :
    (listing.sellerId = buyerId →
      purchaseListing s listing buyerId buyerPoints f = (.notOwnListing, s))
    ∧ (listing.sellerId ≠ buyerId → buyerPoints < listing.pricePoints →
      purchaseListing s listing buyerId buyerPoints f = (.insufficientFunds, s)) := by
  constructor
  · intro h
    simp [purchaseListing, h]
  · intro hne hlt
    have h1 : (listing.sellerId == buyerId) = false := by
      simpa [beq_iff_eq] using hne
    simp [purchaseListing, h1, hlt]

/-- Witness for purchase_precondition_spec: seller a tries to buy their own
listing; buyer b with 10 points tries to buy the 40-point listing. -/
theorem purchase_precondition_spec_witness :
    purchaseListing
      ⟨[], [⟨"l1", "a", none, "Lamp", .recyclable, 40, .active⟩], [],
        [⟨"a", 7, 1, 0, 0, none⟩, ⟨"b", 10, 1, 0, 0, none⟩], [], []⟩
      ⟨"l1", "a", none, "Lamp", .recyclable, 40, .active⟩ "a" 7 noFaults
      = (.notOwnListing,
        ⟨[], [⟨"l1", "a", none, "Lamp", .recyclable, 40, .active⟩], [],
          [⟨"a", 7, 1, 0, 0, none⟩, ⟨"b", 10, 1, 0, 0, none⟩], [], []⟩)
    ∧ purchaseListing
        ⟨[], [⟨"l1", "a", none, "Lamp", .recyclable, 40, .active⟩], [],
          [⟨"a", 7, 1, 0, 0, none⟩, ⟨"b", 10, 1, 0, 0, none⟩], [], []⟩
        ⟨"l1", "a", none, "Lamp", .recyclable, 40, .active⟩ "b" 10 noFaults
      = (.insufficientFunds,
        ⟨[], [⟨"l1", "a", none, "Lamp", .recyclable, 40, .active⟩], [],
          [⟨"a", 7, 1, 0, 0, none⟩, ⟨"b", 10, 1, 0, 0, none⟩], [], []⟩) := by
  have ha := purchase_precondition_spec
    ⟨[], [⟨"l1", "a", none, "Lamp", .recyclable, 40, .active⟩], [],
      [⟨"a", 7, 1, 0, 0, none⟩, ⟨"b", 10, 1, 0, 0, none⟩], [], []⟩
    ⟨"l1", "a", none, "Lamp", .recyclable, 40, .active⟩ "a" 7 noFaults
  have hb := purchase_precondition_spec
    ⟨[], [⟨"l1", "a", none, "Lamp", .recyclable, 40, .active⟩], [],
      [⟨"a", 7, 1, 0, 0, none⟩, ⟨"b", 10, 1, 0, 0, none⟩], [], []⟩
    ⟨"l1", "a", none, "Lamp", .recyclable, 40, .active⟩ "b" 10 noFaults
  exact ⟨ha.1 rfl, hb.2 (by decide) (by decide)⟩

/-- Claim C3 counterexample: the listing l1 is already sold, the buyer is
not the seller and has enough points, yet purchaseListing succeeds and
creates an order — it does not abort with a ListingUnavailable error and it
does write. -/
theorem purchase_sold_listing_not_rejected :
    (purchaseListing
      ⟨[], [⟨"l1", "a", none, "Lamp", .recyclable, 40, .sold⟩], [],
        [⟨"a", 7, 1, 0, 0, none⟩, ⟨"b", 100, 1, 0, 0, none⟩], [], []⟩
      ⟨"l1", "a", none, "Lamp", .recyclable, 40, .sold⟩ "b" 100 noFaults).1
      = .success
    ∧ (purchaseListing
        ⟨[], [⟨"l1", "a", none, "Lamp", .recyclable, 40, .sold⟩], [],
          [⟨"a", 7, 1, 0, 0, none⟩, ⟨"b", 100, 1, 0, 0, none⟩], [], []⟩
        ⟨"l1", "a", none, "Lamp", .recyclable, 40, .sold⟩ "b" 100 noFaults).2.orders
      = [⟨"l1", "b", "a", 40, OrderStatus.pending⟩] := by
  decide

/-- Claim C4, amended: steps 2-6 of purchaseListing are not a transaction
and no compensating write exists. When the buyer-debit update fails after
order creation, the handler stops with the order inserted and the listing
left sold (not rolled back to active), profiles untouched. And when the
seller profile read returns no row, the run still succeeds with the buyer
debited and no seller credit at all — a partial point transfer. -/
theorem purchase_failure_spec (s : Store) (listing : Listing)
    (buyerId : String) (buyerPoints : ℤ)
    (hne : listing.sellerId ≠ buyerId)
    (hfunds : listing.pricePoints ≤ buyerPoints) :
    (purchaseListing s listing buyerId buyerPoints
        ⟨false, false, true, false, false, false, false, false⟩
      = (.purchaseFailed, { s with
          orders := s.orders ++
            [⟨listing.id, buyerId, listing.sellerId, listing.pricePoints, .pending⟩],
          listings := updateListingStatus s.listings listing.id .sold }))
    ∧ (lookupProfile s.profiles listing.sellerId = none →
      purchaseListing s listing buyerId buyerPoints noFaults
        = (.success, { s with
            orders := s.orders ++
              [⟨listing.id, buyerId, listing.sellerId, listing.pricePoints, .pending⟩],
            listings := updateListingStatus s.listings listing.id .sold,
            profiles := updateProfilePoints s.profiles buyerId
              (buyerPoints - listing.pricePoints),
            notifications := s.notifications ++
              [⟨some listing.sellerId, "Your item sold!"⟩],
            messages := s.messages ++ [⟨buyerId, listing.sellerId, listing.id⟩] })) := by
  have h1 : (listing.sellerId == buyerId) = false := by
    simpa [beq_iff_eq] using hne
  have h2 : ¬(buyerPoints < listing.pricePoints) := not_lt.mpr hfunds
  constructor
  · simp [purchaseListing, h1, h2]
  · intro hnone
    have hs3 : lookupProfile (updateProfilePoints s.profiles buyerId
        (buyerPoints - listing.pricePoints)) listing.sellerId = none := by
      rw [lookupProfile_updatePoints_ne _ _ _ _ hne]
      exact hnone
    simp only [purchaseListing, noFaults, h1, Bool.false_eq_true, if_false,
      if_neg h2]
    simp only [hs3]

/-- Witness for purchase_failure_spec: a failing buyer debit on listing l1,
and a fault-free run against a store whose seller profile row is missing. -/
theorem purchase_failure_spec_witness :
    purchaseListing
      ⟨[], [⟨"l1", "a", none, "Lamp", .recyclable, 40, .active⟩], [],
        [⟨"b", 100, 1, 0, 0, none⟩], [], []⟩
      ⟨"l1", "a", none, "Lamp", .recyclable, 40, .active⟩ "b" 100
      ⟨false, false, true, false, false, false, false, false⟩
      = (.purchaseFailed,
        ⟨[], [⟨"l1", "a", none, "Lamp", .recyclable, 40, .sold⟩],
          [⟨"l1", "b", "a", 40, .pending⟩], [⟨"b", 100, 1, 0, 0, none⟩], [], []⟩)
    ∧ purchaseListing
        ⟨[], [⟨"l1", "a", none, "Lamp", .recyclable, 40, .active⟩], [],
          [⟨"b", 100, 1, 0, 0, none⟩], [], []⟩
        ⟨"l1", "a", none, "Lamp", .recyclable, 40, .active⟩ "b" 100 noFaults
      = (.success,
        ⟨[], [⟨"l1", "a", none, "Lamp", .recyclable, 40, .sold⟩],
          [⟨"l1", "b", "a", 40, .pending⟩], [⟨"b", 60, 1, 0, 0, none⟩],
          [⟨some "a", "Your item sold!"⟩], [⟨"b", "a", "l1"⟩]⟩) := by
  have h := purchase_failure_spec
    ⟨[], [⟨"l1", "a", none, "Lamp", .recyclable, 40, .active⟩], [],
      [⟨"b", 100, 1, 0, 0, none⟩], [], []⟩
    ⟨"l1", "a", none, "Lamp", .recyclable, 40, .active⟩ "b" 100
    (by decide) (by decide)
  refine ⟨?_, ?_⟩
  · rw [h.1]
    decide
  · rw [h.2 (by decide)]
    decide

/-- Claim C4 counterexample: with the buyer-debit step failing after order
creation, the listing ends sold, not rolled back to active. -/
theorem purchase_failure_no_rollback :
    (purchaseListing
      ⟨[], [⟨"l1", "a", none, "Lamp", .recyclable, 40, .active⟩], [],
        [⟨"a", 7, 1, 0, 0, none⟩, ⟨"b", 100, 1, 0, 0, none⟩], [], []⟩
      ⟨"l1", "a", none, "Lamp", .recyclable, 40, .active⟩ "b" 100
      ⟨false, false, true, false, false, false, false, false⟩).1
      = .purchaseFailed
    ∧ (purchaseListing
        ⟨[], [⟨"l1", "a", none, "Lamp", .recyclable, 40, .active⟩], [],
          [⟨"a", 7, 1, 0, 0, none⟩, ⟨"b", 100, 1, 0, 0, none⟩], [], []⟩
        ⟨"l1", "a", none, "Lamp", .recyclable, 40, .active⟩ "b" 100
        ⟨false, false, true, false, false, false, false, false⟩).2.listings
      = [⟨"l1", "a", none, "Lamp", .recyclable, 40, .sold⟩]
    ∧ ListingStatus.sold ≠ ListingStatus.active := by
  decide

/-- Finding a profile after a conditional update at the same id gives the
updated row. -/
theorem lookupProfile_cond_update (ps : List Profile) (uid : String)
    (f : Profile → Profile) (hid : ∀ p, (f p).id = p.id) (e : Profile)
    (hfind : lookupProfile ps uid = some e) :
    lookupProfile (ps.map fun p => if p.id == uid then f p else p) uid
      = some (f e) := by
  rw [lookupProfile_map_of_id ps uid _ (fun p => by
    by_cases h : p.id == uid <;> simp [h, hid])]
  rw [hfind]
  rw [lookupProfile] at hfind
  have he := List.find?_some hfind
  have heq : e.id = uid := by simpa [beq_iff_eq] using he
  simp [heq]

/-- Updating scan statuses by id does not change which rows an id filter
finds (it only rewrites their status). -/
theorem filter_updateScanStatus_isEmpty (rs : List ScanRow) (sid : String)
    (st : ScanStatus) :
    ((updateScanStatus rs sid st).filter (fun r => r.id == sid)).isEmpty
      = (rs.filter (fun r => r.id == sid)).isEmpty := by
  unfold updateScanStatus
  rw [List.filter_map]
  have hcomp : ((fun r : ScanRow => r.id == sid)
      ∘ (fun r => if r.id == sid then { r with status := st } else r))
      = fun r : ScanRow => r.id == sid := by
    funext r
    by_cases h : r.id = sid <;> simp [h]
  rw [hcomp]
  cases rs.filter (fun r => r.id == sid) <;> simp

/-- Updating listing statuses by id does not change which rows an id filter
finds. -/
theorem filter_updateListingStatus_isEmpty (ls : List Listing) (lid : String)
    (st : ListingStatus) :
    ((updateListingStatus ls lid st).filter (fun l => l.id == lid)).isEmpty
      = (ls.filter (fun l => l.id == lid)).isEmpty := by
  unfold updateListingStatus
  rw [List.filter_map]
  have hcomp : ((fun l : Listing => l.id == lid)
      ∘ (fun l => if l.id == lid then { l with status := st } else l))
      = fun l : Listing => l.id == lid := by
    funext l
    by_cases h : l.id = lid <;> simp [h]
  rw [hcomp]
  cases ls.filter (fun l => l.id == lid) <;> simp

/-- The fault-free run of the admin scan approval for a non-trade scan
whose user profile exists: scan set approved (by id, regardless of its
current status), profile credited with level recomputed and items bumped,
notification appended, true returned. -/
theorem handleApprove_happy_run (s : Store) (scan : ScanRow) (p : Profile)
    (hfilter : (s.scans.filter (fun r => r.id == scan.id)).isEmpty = false)
    (hnt : scan.disposal_choice ≠ some .trade)
    (hp : lookupProfile s.profiles scan.user_id = some p) :
    handleApprove s scan approveHappy
      = (true, { s with
          scans := updateScanStatus s.scans scan.id .approved,
          profiles := s.profiles.map (fun q =>
            if q.id == scan.user_id then
              { q with total_points := p.total_points + scan.final_points,
                       level := Int.fdiv (p.total_points + scan.final_points) 100 + 1,
                       items_recycled := q.items_recycled + 1 }
            else q),
          notifications := s.notifications ++
            [⟨some scan.user_id, "Scan Approved!"⟩] }) := by
  have hnt' : (scan.disposal_choice == some .trade) = false :=
    beq_eq_false_iff_ne.mpr hnt
  simp only [handleApprove, approveHappy, hfilter, Bool.or_self,
    Bool.false_eq_true, if_false, hnt', Bool.false_or]
  simp only [hp]

/-- The fault-free run of the admin listing approval: listing set active
(by id, regardless of its current status), notification appended, true
returned. -/
theorem listingApprove_happy_run (s : Store) (listing : Listing)
    (hfilter : (s.listings.filter (fun l => l.id == listing.id)).isEmpty = false) :
    listingApprove s listing listingHappy
      = (true, { s with
          listings := updateListingStatus s.listings listing.id .active,
          notifications := s.notifications ++
            [⟨some listing.sellerId, "Listing Approved!"⟩] }) := by
  simp only [listingApprove, listingHappy, hfilter, Bool.or_self,
    Bool.false_eq_true, if_false]

/-- Claim C5, amended: the ReviewQueue approve handlers update rows by id
alone, with no guard on the record's current status (the only reentrancy
protection is the component-local processing flag). They are therefore not
idempotent: a second fault-free approval of the same scan succeeds again
and credits final_points a second time, and a second fault-free approval of
the same listing succeeds again and sends a second notification. -/
theorem review_not_status_guarded (s : Store) (scan : ScanRow) (p : Profile)
    (hfilter : (s.scans.filter (fun r => r.id == scan.id)).isEmpty = false)
    (hnt : scan.disposal_choice ≠ some .trade)
    (hp : lookupProfile s.profiles scan.user_id = some p)
    (s0 : Store) (listing : Listing)
    (hlf : (s0.listings.filter (fun l => l.id == listing.id)).isEmpty = false) :
    (handleApprove s scan approveHappy).1 = true
    ∧ (handleApprove (handleApprove s scan approveHappy).2 scan approveHappy).1
        = true
    ∧ (lookupProfile (handleApprove (handleApprove s scan approveHappy).2 scan
          approveHappy).2.profiles scan.user_id).map Profile.total_points
      = some (p.total_points + scan.final_points + scan.final_points)
    ∧ (listingApprove s0 listing listingHappy).1 = true
    ∧ (listingApprove (listingApprove s0 listing listingHappy).2 listing
        listingHappy).1 = true
    ∧ (listingApprove (listingApprove s0 listing listingHappy).2 listing
        listingHappy).2.notifications.length = s0.notifications.length + 2 := by
  have hrun1 := handleApprove_happy_run s scan p hfilter hnt hp
  have hfilter2 : (((handleApprove s scan approveHappy).2).scans.filter
      (fun r => r.id == scan.id)).isEmpty = false := by
    rw [hrun1]
    show ((updateScanStatus s.scans scan.id .approved).filter
      (fun r => r.id == scan.id)).isEmpty = false
    rw [filter_updateScanStatus_isEmpty]
    exact hfilter
  have hp2 : lookupProfile ((handleApprove s scan approveHappy).2).profiles
      scan.user_id = some { p with
        total_points := p.total_points + scan.final_points,
        level := Int.fdiv (p.total_points + scan.final_points) 100 + 1,
        items_recycled := p.items_recycled + 1 } := by
    rw [hrun1]
    exact lookupProfile_cond_update s.profiles scan.user_id
      (fun q => { q with
        total_points := p.total_points + scan.final_points,
        level := Int.fdiv (p.total_points + scan.final_points) 100 + 1,
        items_recycled := q.items_recycled + 1 })
      (fun q => rfl) p hp
  obtain ⟨p2, hp21, htp2⟩ : ∃ p2,
      lookupProfile ((handleApprove s scan approveHappy).2).profiles
        scan.user_id = some p2
      ∧ p2.total_points = p.total_points + scan.final_points :=
    ⟨_, hp2, rfl⟩
  have hrun2 := handleApprove_happy_run ((handleApprove s scan approveHappy).2)
    scan p2 hfilter2 hnt hp21
  have hlrun1 := listingApprove_happy_run s0 listing hlf
  have hlf2 : (((listingApprove s0 listing listingHappy).2).listings.filter
      (fun l => l.id == listing.id)).isEmpty = false := by
    rw [hlrun1]
    show ((updateListingStatus s0.listings listing.id .active).filter
      (fun l => l.id == listing.id)).isEmpty = false
    rw [filter_updateListingStatus_isEmpty]
    exact hlf
  have hlrun2 := listingApprove_happy_run ((listingApprove s0 listing listingHappy).2)
    listing hlf2
  refine ⟨by rw [hrun1], by rw [hrun2], ?_, by rw [hlrun1], by rw [hlrun2], ?_⟩
  · rw [hrun2]
    rw [lookupProfile_cond_update _ scan.user_id
      (fun q => { q with
        total_points := p2.total_points + scan.final_points,
        level := Int.fdiv (p2.total_points + scan.final_points) 100 + 1,
        items_recycled := q.items_recycled + 1 })
      (fun q => rfl) _ hp21]
    simp [htp2]
  · rw [hlrun2, hlrun1]
    simp


/-- Witness for review_not_status_guarded: scan s1 (20 final points, donate)
of user u with balance 0, and pending listing l1 of seller a. -/
theorem review_not_status_guarded_witness :
    (handleApprove
      ⟨[⟨"s1", "u", "Jacket", .clothing, 10, 20, .pending, some .donate⟩], [], [],
        [⟨"u", 0, 1, 0, 0, none⟩], [], []⟩
      ⟨"s1", "u", "Jacket", .clothing, 10, 20, .pending, some .donate⟩
      approveHappy).1 = true
    ∧ (lookupProfile (handleApprove (handleApprove
        ⟨[⟨"s1", "u", "Jacket", .clothing, 10, 20, .pending, some .donate⟩], [], [],
          [⟨"u", 0, 1, 0, 0, none⟩], [], []⟩
        ⟨"s1", "u", "Jacket", .clothing, 10, 20, .pending, some .donate⟩
        approveHappy).2
        ⟨"s1", "u", "Jacket", .clothing, 10, 20, .pending, some .donate⟩
        approveHappy).2.profiles "u").map Profile.total_points
      = some (0 + 20 + 20)
    ∧ (listingApprove
        ⟨[], [⟨"l1", "a", none, "Lamp", .recyclable, 40, .pending_review⟩], [],
          [], [], []⟩
        ⟨"l1", "a", none, "Lamp", .recyclable, 40, .pending_review⟩
        listingHappy).1 = true := by
  have h := review_not_status_guarded
    ⟨[⟨"s1", "u", "Jacket", .clothing, 10, 20, .pending, some .donate⟩], [], [],
      [⟨"u", 0, 1, 0, 0, none⟩], [], []⟩
    ⟨"s1", "u", "Jacket", .clothing, 10, 20, .pending, some .donate⟩
    ⟨"u", 0, 1, 0, 0, none⟩ (by decide) (by decide) (by decide)
    ⟨[], [⟨"l1", "a", none, "Lamp", .recyclable, 40, .pending_review⟩], [],
      [], [], []⟩
    ⟨"l1", "a", none, "Lamp", .recyclable, 40, .pending_review⟩ (by decide)
  exact ⟨h.1, h.2.2.1, h.2.2.2.1⟩

/-- Claim C5 counterexample: approving the same scan twice credits twice.
One fault-free approval of the pending 20-point scan leaves user u at 20
points; a second fault-free approval of the same (already approved) scan
succeeds again and leaves u at 40 points, not at most 20. -/
theorem double_approve_double_credits :
    (lookupProfile (handleApprove
      ⟨[⟨"s1", "u", "Jacket", .clothing, 10, 20, .pending, some .donate⟩], [], [],
        [⟨"u", 0, 1, 0, 0, none⟩], [], []⟩
      ⟨"s1", "u", "Jacket", .clothing, 10, 20, .pending, some .donate⟩
      approveHappy).2.profiles "u").map Profile.total_points = some 20
    ∧ (handleApprove (handleApprove
        ⟨[⟨"s1", "u", "Jacket", .clothing, 10, 20, .pending, some .donate⟩], [], [],
          [⟨"u", 0, 1, 0, 0, none⟩], [], []⟩
        ⟨"s1", "u", "Jacket", .clothing, 10, 20, .pending, some .donate⟩
        approveHappy).2
        ⟨"s1", "u", "Jacket", .clothing, 10, 20, .pending, some .donate⟩
        approveHappy).1 = true
    ∧ (lookupProfile (handleApprove (handleApprove
        ⟨[⟨"s1", "u", "Jacket", .clothing, 10, 20, .pending, some .donate⟩], [], [],
          [⟨"u", 0, 1, 0, 0, none⟩], [], []⟩
        ⟨"s1", "u", "Jacket", .clothing, 10, 20, .pending, some .donate⟩
        approveHappy).2
        ⟨"s1", "u", "Jacket", .clothing, 10, 20, .pending, some .donate⟩
        approveHappy).2.profiles "u").map Profile.total_points = some 40
    ∧ (40 : ℤ) ≠ 20 := by
  decide

/-- Claim C6, amended: the scan credit paths recompute level — the
immediate approval of an other-category scan, the discard auto-approval,
and the admin scan approval all set level = floor(totalPoints / 100) + 1
after the credit (the first two also fire the level-up animation check) —
but neither leg of a purchase recomputes level: purchaseListing leaves
every profile's level field unchanged in every execution, even though it
changes total_points, so the level invariant can break after a purchase,
and no level-up notification is emitted there. -/
theorem level_recompute_spec :
    (∀ (result : ClassificationResult) (stats : UserStats)
        (history : List ScanItem),
      result.isRetry = false → result.category = .other →
      (scanWithImage result stats history).stats.level
        = calculateLevel (stats.totalPoints + result.points))
    ∧ (∀ (item : ScanItem) (stats : UserStats),
      (handleDisposalChoice item stats .discard).stats.level
        = calculateLevel (stats.totalPoints
            + (handleDisposalChoice item stats .discard).item.finalPoints))
    ∧ (∀ (s : Store) (scan : ScanRow) (p : Profile),
      (s.scans.filter (fun r => r.id == scan.id)).isEmpty = false →
      scan.disposal_choice ≠ some .trade →
      lookupProfile s.profiles scan.user_id = some p →
      (lookupProfile (handleApprove s scan approveHappy).2.profiles
          scan.user_id).map Profile.level
        = some (calculateLevel (p.total_points + scan.final_points)))
    ∧ (∀ (s : Store) (listing : Listing) (buyerId : String) (buyerPoints : ℤ)
        (f : PurchaseFaults),
      (purchaseListing s listing buyerId buyerPoints f).2.profiles.map
          Profile.level
        = s.profiles.map Profile.level) := by
  refine ⟨?_, ?_, ?_, ?_⟩
  · intro result stats history hretry hcat
    simp [scanWithImage, hretry, hcat, categoryNeedsChoice]
  · intro item stats
    rfl
  · intro s scan p hfilter hnt hp
    rw [handleApprove_happy_run s scan p hfilter hnt hp]
    rw [lookupProfile_cond_update _ scan.user_id
      (fun q => { q with
        total_points := p.total_points + scan.final_points,
        level := Int.fdiv (p.total_points + scan.final_points) 100 + 1,
        items_recycled := q.items_recycled + 1 })
      (fun q => rfl) _ hp]
    simp [calculateLevel]
  · intro s listing buyerId buyerPoints f
    by_cases h1 : listing.sellerId == buyerId
    · simp [purchaseListing, h1]
    by_cases h2 : buyerPoints < listing.pricePoints
    · simp [purchaseListing, h1, h2]
    by_cases h3 : f.orderInsertFails
    · simp [purchaseListing, h1, h2, h3]
    by_cases h4 : f.listingUpdateFails
    · simp [purchaseListing, h1, h2, h3, h4]
    by_cases h5 : f.buyerUpdateFails
    · simp [purchaseListing, h1, h2, h3, h4, h5, updateProfilePoints_map_level]
    by_cases h6 : f.sellerSelectFails
    · simp [purchaseListing, h1, h2, h3, h4, h5, h6, apply_ite,
        updateProfilePoints_map_level]
    cases hlp : lookupProfile (updateProfilePoints s.profiles buyerId
        (buyerPoints - listing.pricePoints)) listing.sellerId with
    | none =>
        simp [purchaseListing, h1, h2, h3, h4, h5, h6, hlp, apply_ite,
          updateProfilePoints_map_level]
    | some sp =>
        by_cases h7 : f.sellerUpdateFails
        · simp [purchaseListing, h1, h2, h3, h4, h5, h6, h7, hlp, apply_ite,
            updateProfilePoints_map_level]
        · simp [purchaseListing, h1, h2, h3, h4, h5, h6, h7, hlp, apply_ite,
            updateProfilePoints_map_level]

/-- Witness for level_recompute_spec: the scan, discard, and admin paths at
concrete inputs, and a concrete purchase leaving levels untouched. -/
theorem level_recompute_spec_witness :
    (scanWithImage ⟨"bag", .other, 8, false⟩ ⟨95, 1, 0, 0, 0, 0⟩ []).stats.level
      = calculateLevel (95 + 8)
    ∧ (lookupProfile (handleApprove
        ⟨[⟨"s1", "u", "Jacket", .clothing, 10, 20, .pending, some .donate⟩],
          [], [], [⟨"u", 90, 1, 0, 0, none⟩], [], []⟩
        ⟨"s1", "u", "Jacket", .clothing, 10, 20, .pending, some .donate⟩
        approveHappy).2.profiles "u").map Profile.level
      = some (calculateLevel (90 + 20))
    ∧ (purchaseListing
        ⟨[], [⟨"l1", "a", none, "Lamp", .recyclable, 100, .active⟩], [],
          [⟨"a", 0, 1, 0, 0, none⟩, ⟨"b", 150, 2, 0, 0, none⟩], [], []⟩
        ⟨"l1", "a", none, "Lamp", .recyclable, 100, .active⟩ "b" 150
        noFaults).2.profiles.map Profile.level
      = ([⟨"a", 0, 1, 0, 0, none⟩, ⟨"b", 150, 2, 0, 0, none⟩] :
          List Profile).map Profile.level := by
  have h := level_recompute_spec
  refine ⟨h.1 ⟨"bag", .other, 8, false⟩ ⟨95, 1, 0, 0, 0, 0⟩ [] rfl rfl, ?_, ?_⟩
  · exact h.2.2.1
      ⟨[⟨"s1", "u", "Jacket", .clothing, 10, 20, .pending, some .donate⟩],
        [], [], [⟨"u", 90, 1, 0, 0, none⟩], [], []⟩
      ⟨"s1", "u", "Jacket", .clothing, 10, 20, .pending, some .donate⟩
      ⟨"u", 90, 1, 0, 0, none⟩ (by decide) (by decide) (by decide)
  · exact h.2.2.2
      ⟨[], [⟨"l1", "a", none, "Lamp", .recyclable, 100, .active⟩], [],
        [⟨"a", 0, 1, 0, 0, none⟩, ⟨"b", 150, 2, 0, 0, none⟩], [], []⟩
      ⟨"l1", "a", none, "Lamp", .recyclable, 100, .active⟩ "b" 150 noFaults

/-- Claim C6 counterexample: buyer b at 150 points, level 2, buys a
100-point listing fault-free. Afterwards b holds 50 points but still level
2, while floor(50 / 100) + 1 = 1 — the purchase debit did not recompute
level and the invariant is broken. -/
theorem purchase_level_invariant_broken :
    lookupProfile (purchaseListing
      ⟨[], [⟨"l1", "a", none, "Lamp", .recyclable, 100, .active⟩], [],
        [⟨"a", 0, 1, 0, 0, none⟩, ⟨"b", 150, 2, 0, 0, none⟩], [], []⟩
      ⟨"l1", "a", none, "Lamp", .recyclable, 100, .active⟩ "b" 150
      noFaults).2.profiles "b" = some ⟨"b", 50, 2, 0, 0, none⟩
    ∧ calculateLevel 50 ≠ 2 := by
  decide

end EcoSort
